import Mathlib

/-!
Verification of the timer/async-tracking core of the Jayasurya-Hooks-practices
repository, as a shallow embedding in Lean 4.

Embedded source files:
* `src/hooks/useAsync.ts` — the Async Request Tracker (`useAsync`): an
  async-operation state record (`value`/`isLoading`/`error`), a monotonically
  increasing request id, and a mounted flag; `execute` applies a completion to
  state only when the component is still mounted and the completion's request
  id is still the latest issued.
* `src/hooks/useTimer.ts` — the Timer Session Controller (`useTimer`): local
  `timer` state, `timerRef`/`isRunningRef` sync effects, an interval handle in
  `intervalRef`, operations `start`/`pause`/`reset`, a reconciler effect and an
  unmount cleanup that clears the interval.

The single-threaded event-loop execution of the hooks is modelled as a state
machine: each state holds the React state plus the refs, and events are the
synchronous segments the event loop can schedule (an operation's synchronous
prefix, a completion handler, an interval firing, an effect flush, unmount).
-/

namespace HooksPractice

/-! Part 1 — `src/hooks/useAsync.ts` (Async Request Tracker). -/

/-- The `AsyncState<T>` record of useAsync.ts (lines 3-7): `value: T | null`,
`isLoading: boolean`, `error: Error | null`. `T` is the success type, `E` the
error type. -/
structure AsyncState (T E : Type) where
  value : Option T
  isLoading : Bool
  error : Option E
deriving DecidableEq, Repr

/-- The mutable context of one mounted `useAsync` hook: the React state plus
`latestRequestIdRef` (line 46) and `isMountedRef` (line 47). -/
structure TrackerState (T E : Type) where
  state : AsyncState T E
  latestRequestId : Nat
  isMounted : Bool
deriving DecidableEq, Repr

/-- The initial hook state from `useState` at lines 39-43:
`{ value: null, isLoading: immediate, error: null }`, request id counter `0`,
mounted. -/
def initialTracker (T E : Type) (immediate : Bool) : TrackerState T E :=
  { state := { value := none, isLoading := immediate, error := none },
    latestRequestId := 0,
    isMounted := true }

/-- The settled outcome of one asynchronous operation: the promise either
resolved with a value or rejected with an error. -/
inductive AsyncResult (T E : Type) where
  | success (v : T)
  | failure (e : E)
deriving DecidableEq, Repr

/-- The synchronous prefix of `execute` (useAsync.ts lines 60-65): if the
component is unmounted, return `undefined` before invoking the async function
and before touching any state (modelled by the second component being `none`);
otherwise increment `latestRequestIdRef`, optimistically set
`isLoading := true` and clear `error`, and invoke the async function under the
new request id (second component `some id`). -/
def executeStart {T E : Type} (s : TrackerState T E) :
    TrackerState T E × Option Nat :=
  if !s.isMounted then (s, none)
  else
    ({ s with
        latestRequestId := s.latestRequestId + 1,
        state := { s.state with isLoading := true, error := none } },
     some (s.latestRequestId + 1))

/-- The completion handler of `execute` (useAsync.ts lines 67-77): when the
promise issued under request id `rid` settles, the result is discarded if the
component has unmounted or `rid` is no longer the latest issued id; otherwise a
resolution writes `{ value, isLoading: false, error: null }` and a rejection
writes `isLoading: false` and the error, keeping the previous `value`. -/
def executeSettle {T E : Type} (rid : Nat) (r : AsyncResult T E)
    (s : TrackerState T E) : TrackerState T E :=
  if !s.isMounted || rid != s.latestRequestId then s
  else
    match r with
    | .success v =>
        { s with state := { value := some v, isLoading := false, error := none } }
    | .failure e =>
        { s with state := { s.state with isLoading := false, error := some e } }

/-- An event-loop step touching one `useAsync` hook instance: the synchronous
prefix of an `execute` call, the completion of the request with id `rid`, or
the unmount cleanup (useAsync.ts lines 54-58) flipping `isMountedRef`. -/
inductive TrackerEvent (T E : Type) where
  | issue
  | settle (rid : Nat) (r : AsyncResult T E)
  | unmountTracker
deriving DecidableEq, Repr

/-- One step of the tracker state machine. -/
def trackerStep {T E : Type} (s : TrackerState T E) :
    TrackerEvent T E → TrackerState T E
  | .issue => (executeStart s).1
  | .settle rid r => executeSettle rid r s
  | .unmountTracker => { s with isMounted := false }

/-- Run a list of event-loop steps in order. -/
def trackerRun {T E : Type} (s : TrackerState T E) :
    List (TrackerEvent T E) → TrackerState T E
  | [] => s
  | e :: es => trackerRun (trackerStep s e) es

theorem trackerRun_append {T E : Type} (s : TrackerState T E)
    (a b : List (TrackerEvent T E)) :
    trackerRun s (a ++ b) = trackerRun (trackerRun s a) b := by
  induction a generalizing s with
  | nil => rfl
  | cons e es ih => simp [trackerRun, ih]

theorem executeSettle_latest {T E : Type} (rid : Nat) (r : AsyncResult T E)
    (s : TrackerState T E) :
    (executeSettle rid r s).latestRequestId = s.latestRequestId := by
  unfold executeSettle
  split
  · rfl
  · cases r <;> rfl

theorem executeSettle_mounted {T E : Type} (rid : Nat) (r : AsyncResult T E)
    (s : TrackerState T E) :
    (executeSettle rid r s).isMounted = s.isMounted := by
  unfold executeSettle
  split
  · rfl
  · cases r <;> rfl

theorem executeSettle_stale {T E : Type} (rid : Nat) (r : AsyncResult T E)
    (s : TrackerState T E) (h : rid ≠ s.latestRequestId) :
    executeSettle rid r s = s := by
  have hb : (rid != s.latestRequestId) = true := by
    simpa [bne_iff_ne] using h
  simp [executeSettle, hb]

theorem trackerStep_mounted_of_not_unmount {T E : Type}
    (s : TrackerState T E) (e : TrackerEvent T E)
    (h : e ≠ TrackerEvent.unmountTracker) :
    (trackerStep s e).isMounted = s.isMounted := by
  cases e with
  | issue =>
      simp only [trackerStep]
      unfold executeStart
      split <;> rfl
  | settle rid r =>
      simpa only [trackerStep] using executeSettle_mounted rid r s
  | unmountTracker => exact absurd rfl h

theorem trackerRun_mounted_of_not_unmount {T E : Type}
    (s : TrackerState T E) (l : List (TrackerEvent T E))
    (h : ∀ e ∈ l, e ≠ TrackerEvent.unmountTracker) :
    (trackerRun s l).isMounted = s.isMounted := by
  induction l generalizing s with
  | nil => rfl
  | cons e es ih =>
      have he := h e (List.mem_cons_self e es)
      have hs := trackerStep_mounted_of_not_unmount s e he
      have := ih (trackerStep s e) (fun x hx => h x (List.mem_cons_of_mem e hx))
      simpa [trackerRun, hs] using this

/-- A run consisting only of completions whose request id differs from the
current latest id leaves the state untouched. -/
theorem trackerRun_stale_settles {T E : Type} (L : Nat)
    (s : TrackerState T E) (l : List (TrackerEvent T E))
    (hL : s.latestRequestId = L)
    (hl : ∀ e ∈ l, ∃ rid r, e = TrackerEvent.settle rid r ∧ rid ≠ L) :
    trackerRun s l = s := by
  induction l with
  | nil => rfl
  | cons e es ih =>
      obtain ⟨rid, r, rfl, hrid⟩ := hl e (List.mem_cons_self e es)
      have hstep : trackerStep s (TrackerEvent.settle rid r) = s := by
        apply executeSettle_stale
        rw [hL]; exact hrid
      rw [trackerRun, hstep]
      exact ih (fun x hx => hl x (List.mem_cons_of_mem _ hx))

/-- C1: for N concurrent invocations of `execute` on the same hook, after all
N settle the tracked state (`value`/`error`) equals the result of the
invocation issued last, regardless of completion order: in any trace that
issues a last request (id `L`, settling with result `r`) after an arbitrary
mounted prefix, with every other interleaved completion bearing an earlier
(hence different) request id, the final async state matches `r`, and the
stale completions arriving after the last-issued one leave the state
untouched. -/
theorem useAsync_last_issued_wins {T E : Type} (s₀ : TrackerState T E)
    (pre s1 s2 : List (TrackerEvent T E)) (r : AsyncResult T E) (L : Nat)
    (hm : s₀.isMounted = true)
    (hpre : ∀ e ∈ pre, e ≠ TrackerEvent.unmountTracker)
    (hL : L = (trackerRun s₀ pre).latestRequestId + 1)
    (hs1 : ∀ e ∈ s1, ∃ rid r', e = TrackerEvent.settle rid r' ∧ rid ≠ L)
    (hs2 : ∀ e ∈ s2, ∃ rid r', e = TrackerEvent.settle rid r' ∧ rid ≠ L) :
    (match r with
      | AsyncResult.success v =>
          (trackerRun s₀ (pre ++ TrackerEvent.issue ::
              (s1 ++ TrackerEvent.settle L r :: s2))).state =
            { value := some v, isLoading := false, error := none }
      | AsyncResult.failure e =>
          (trackerRun s₀ (pre ++ TrackerEvent.issue ::
              (s1 ++ TrackerEvent.settle L r :: s2))).state.error = some e ∧
          (trackerRun s₀ (pre ++ TrackerEvent.issue ::
              (s1 ++ TrackerEvent.settle L r :: s2))).state.isLoading = false)
    ∧ trackerRun s₀ (pre ++ TrackerEvent.issue :: (s1 ++ TrackerEvent.settle L r :: s2)) =
        trackerRun s₀ (pre ++ TrackerEvent.issue :: (s1 ++ [TrackerEvent.settle L r])) := by
  have hA : (trackerRun s₀ pre).isMounted = true := by
    rw [trackerRun_mounted_of_not_unmount s₀ pre hpre]; exact hm
  have hB : trackerStep (trackerRun s₀ pre) TrackerEvent.issue =
      { trackerRun s₀ pre with
          latestRequestId := (trackerRun s₀ pre).latestRequestId + 1,
          state := { (trackerRun s₀ pre).state with isLoading := true, error := none } } := by
    simp [trackerStep, executeStart, hA]
  have hBL : (trackerStep (trackerRun s₀ pre) TrackerEvent.issue).latestRequestId = L := by
    rw [hB, hL]
  have hBm : (trackerStep (trackerRun s₀ pre) TrackerEvent.issue).isMounted = true := by
    rw [hB]; exact hA
  have hDL : (executeSettle L r (trackerStep (trackerRun s₀ pre) TrackerEvent.issue)).latestRequestId
      = L := by
    rw [executeSettle_latest]; exact hBL
  have hfinal : ∀ s2' : List (TrackerEvent T E),
      (∀ e ∈ s2', ∃ rid r', e = TrackerEvent.settle rid r' ∧ rid ≠ L) →
      trackerRun s₀ (pre ++ TrackerEvent.issue :: (s1 ++ TrackerEvent.settle L r :: s2')) =
        executeSettle L r (trackerStep (trackerRun s₀ pre) TrackerEvent.issue) := by
    intro s2' hs2'
    rw [trackerRun_append]
    simp only [trackerRun]
    rw [trackerRun_append,
      trackerRun_stale_settles L _ s1 hBL hs1]
    simp only [trackerRun]
    exact trackerRun_stale_settles L _ s2' hDL hs2'
  constructor
  · cases r with
    | success v =>
        rw [hfinal s2 hs2]
        simp [executeSettle, hBm, hBL]
    | failure e =>
        rw [hfinal s2 hs2]
        constructor <;> simp [executeSettle, hBm, hBL]
  · rw [hfinal s2 hs2, hfinal [] (by intro e he; exact absurd he (List.not_mem_nil e))]

/-- Witness for C1: two requests issued back to back; the second-issued
request (id 2) resolves with value 5 first, then the first-issued request (id
1) rejects with error 7; the final state keeps the second request's success. -/
theorem useAsync_last_issued_wins_witness :
    (trackerRun (initialTracker Nat Nat true)
        ([TrackerEvent.issue] ++ TrackerEvent.issue ::
          ([] ++ TrackerEvent.settle 2 (AsyncResult.success 5) ::
            [TrackerEvent.settle 1 (AsyncResult.failure 7)]))).state =
      { value := some 5, isLoading := false, error := none } := by
  have h := useAsync_last_issued_wins (initialTracker Nat Nat true)
      [TrackerEvent.issue] [] [TrackerEvent.settle 1 (AsyncResult.failure 7)]
      (AsyncResult.success 5) 2 rfl (by decide) (by decide)
      (by intro e he; exact absurd he (List.not_mem_nil e))
      (by
        intro e he
        rw [List.mem_singleton] at he
        subst he
        exact ⟨1, AsyncResult.failure 7, rfl, by decide⟩)
  exact h.1

/-- C5: a failed invocation records a distinct error state under the same
sequence-number gate as success: a completion whose id is not the latest
(whether failure or success) leaves the state untouched — so a stale failure
never overwrites a fresher success and a stale success never overwrites a
fresher failure — while a current-id failure records the error with
`isLoading` false and a current-id success records the value. -/
theorem useAsync_stale_gating {T E : Type} (s : TrackerState T E)
    (i : Nat) (v : T) (e : E)
    (hm : s.isMounted = true) (hi : i ≠ s.latestRequestId) :
    executeSettle i (AsyncResult.failure e) s = s ∧
    executeSettle i (AsyncResult.success v) s = s ∧
    (executeSettle s.latestRequestId (AsyncResult.failure e) s).state.error = some e ∧
    (executeSettle s.latestRequestId (AsyncResult.failure e) s).state.isLoading = false ∧
    (executeSettle s.latestRequestId (AsyncResult.success v) s).state =
      { value := some v, isLoading := false, error := none } := by
  refine ⟨executeSettle_stale _ _ _ hi, executeSettle_stale _ _ _ hi, ?_, ?_, ?_⟩ <;>
    simp [executeSettle, hm]

/-- Witness for C5: after request 2's success (value 5) is applied, the stale
failure of request 1 (error 7) leaves the state — including the stored
success value — untouched. -/
theorem useAsync_stale_gating_witness :
    executeSettle 1 (AsyncResult.failure 7)
        (trackerRun (initialTracker Nat Nat true)
          [TrackerEvent.issue, TrackerEvent.issue,
            TrackerEvent.settle 2 (AsyncResult.success 5)]) =
      trackerRun (initialTracker Nat Nat true)
        [TrackerEvent.issue, TrackerEvent.issue,
          TrackerEvent.settle 2 (AsyncResult.success 5)] := by
  exact (useAsync_stale_gating _ 1 5 7 (by decide) (by decide)).1

/-- C9: invoking `execute` after the owning component has been torn down
returns `undefined` (the `none` request id) without invoking the underlying
async function and without modifying `value`, `isLoading` or `error`. -/
theorem useAsync_execute_after_unmount {T E : Type} (s : TrackerState T E)
    (h : s.isMounted = false) :
    executeStart s = (s, none) ∧
    (executeStart s).1.state.value = s.state.value ∧
    (executeStart s).1.state.isLoading = s.state.isLoading ∧
    (executeStart s).1.state.error = s.state.error := by
  simp [executeStart, h]

/-- Witness for C9: a freshly unmounted tracker is left untouched by a
further `execute` call, which assigns no request id. -/
theorem useAsync_execute_after_unmount_witness :
    executeStart (trackerRun (initialTracker Nat Nat true) [TrackerEvent.unmountTracker]) =
      (trackerRun (initialTracker Nat Nat true) [TrackerEvent.unmountTracker], none) := by
  exact (useAsync_execute_after_unmount _ (by decide)).1

theorem trackerStep_error_not_loading {T E : Type} (s : TrackerState T E)
    (e : TrackerEvent T E)
    (h : s.state.error ≠ none → s.state.isLoading = false) :
    (trackerStep s e).state.error ≠ none → (trackerStep s e).state.isLoading = false := by
  cases e with
  | issue =>
      simp only [trackerStep]
      unfold executeStart
      split
      · exact h
      · intro hne; exact absurd rfl hne
  | settle rid r =>
      simp only [trackerStep]
      unfold executeSettle
      split
      · exact h
      · cases r with
        | success v => intro _; rfl
        | failure e => intro _; rfl
  | unmountTracker => exact h

/-- C10: a non-null `error` coexists only with `isLoading = false` in every
reachable tracker state, and `execute` on a mounted tracker synchronously
sets `isLoading` to true while clearing the previous error. -/
theorem useAsync_loading_error_invariant {T E : Type} (immediate : Bool)
    (es : List (TrackerEvent T E)) :
    ((trackerRun (initialTracker T E immediate) es).state.error ≠ none →
      (trackerRun (initialTracker T E immediate) es).state.isLoading = false) ∧
    (∀ s : TrackerState T E, s.isMounted = true →
      (executeStart s).1.state.isLoading = true ∧ (executeStart s).1.state.error = none) := by
  constructor
  · have gen : ∀ (l : List (TrackerEvent T E)) (s : TrackerState T E),
        (s.state.error ≠ none → s.state.isLoading = false) →
        ((trackerRun s l).state.error ≠ none → (trackerRun s l).state.isLoading = false) := by
      intro l
      induction l with
      | nil => intro s h; exact h
      | cons e es ih =>
          intro s h
          exact ih _ (trackerStep_error_not_loading s e h)
    exact gen es _ (fun hc => absurd rfl hc)
  · intro s hm
    simp [executeStart, hm]

/-- Witness for C10: after an issued request rejects with error 3, the error
is present and `isLoading` is false; and a mounted `execute` call sets
`isLoading` and clears the error. -/
theorem useAsync_loading_error_invariant_witness :
    (trackerRun (initialTracker Nat Nat false)
        [TrackerEvent.issue, TrackerEvent.settle 1 (AsyncResult.failure 3)]).state.isLoading
      = false ∧
    (executeStart (initialTracker Nat Nat false)).1.state.isLoading = true := by
  constructor
  · exact (useAsync_loading_error_invariant false _).1 (by decide)
  · exact ((useAsync_loading_error_invariant false
      ([] : List (TrackerEvent Nat Nat))).2 (initialTracker Nat Nat false) rfl).1

/-! Part 2 — `src/hooks/useTimer.ts` (Timer Session Controller). -/

/-- The `Timer` entity from `src/types/timer` as used by the hooks and their
tests: id, name, description, elapsed seconds, running flag and creation
timestamp, with an optional start timestamp. `elapsed` is embedded as an
integer so that its non-negativity is a provable property rather than a
typing artefact. -/
structure Timer where
  id : String
  name : String
  description : String
  elapsed : Int
  isRunning : Bool
  createdAt : Nat
  startedAt : Option Nat := none
deriving DecidableEq, Repr

/-- The partial-Timer payload that `start`/`pause`/`reset` pass to
`timerApi.updateTimer`: an optional `isRunning` and an optional `elapsed`
field (the only fields these call sites ever send). -/
structure UpdatePayload where
  isRunning : Option Bool := none
  elapsed : Option Int := none
deriving DecidableEq, Repr

/-- One confirmation request issued to `timerApi.updateTimer(id, payload)`. -/
structure UpdateRequest where
  id : String
  payload : UpdatePayload
deriving DecidableEq, Repr

/-- The mutable context of one mounted `useTimer` hook: the React `timer`
state (line 13), `timerRef` (line 16), `isRunningRef` (line 21), whether
`intervalRef.current` is non-null (line 14), a ghost count of `setInterval`
calls (ticking processes created), and a ghost count of `console.error`
calls from the catch blocks. -/
structure TimerHookState where
  timer : Timer
  timerRefCurrent : Timer
  isRunningRefCurrent : Bool
  intervalSet : Bool
  intervalsCreated : Nat
  consoleErrorCount : Nat
deriving DecidableEq, Repr

/-- Hook state straight after the first render of `useTimer(initialTimer)`
(before any effect has run): state and refs seeded from `initialTimer`,
`intervalRef.current = null`. -/
def initTimerHook (t : Timer) : TimerHookState :=
  { timer := t,
    timerRefCurrent := t,
    isRunningRefCurrent := t.isRunning,
    intervalSet := false,
    intervalsCreated := 0,
    consoleErrorCount := 0 }

/-- The `clearTimerInterval` callback (useTimer.ts lines 26-31): if an
interval handle is stored, cancel it and null the ref. -/
def clearTimerInterval (s : TimerHookState) : TimerHookState :=
  if s.intervalSet then { s with intervalSet := false } else s

/-- The synchronous body of `start()` up to its `await` (lines 33-43): the
reentrancy guard over `isRunningRef` and `intervalRef`, the optimistic
`isRunning` flip, the `setInterval` registration, and the confirmation
request `updateTimer(timerRef.current.id, { isRunning: true })`. The second
component lists the requests issued (empty when the guard returns early). -/
def startSync (s : TimerHookState) : TimerHookState × List UpdateRequest :=
  if s.isRunningRefCurrent || s.intervalSet then (s, [])
  else
    ({ s with
        timer := { s.timer with isRunning := true },
        intervalSet := true,
        intervalsCreated := s.intervalsCreated + 1 },
     [{ id := s.timerRefCurrent.id, payload := { isRunning := some true } }])

/-- The synchronous body of `pause()` up to its `await` (lines 49-54):
clear the interval, optimistically set `isRunning` to false, and issue
`updateTimer(id, { isRunning: false, elapsed })` with `id` and `elapsed` read
from `timerRef.current`. -/
def pauseSync (s : TimerHookState) : TimerHookState × List UpdateRequest :=
  ({ clearTimerInterval s with
      timer := { (clearTimerInterval s).timer with isRunning := false } },
   [{ id := s.timerRefCurrent.id,
      payload := { isRunning := some false, elapsed := some s.timerRefCurrent.elapsed } }])

/-- The synchronous body of `reset()` up to its `await` (lines 78-82): clear
the interval, set `elapsed` to 0 and `isRunning` to false, and issue
`updateTimer(timerRef.current.id, { elapsed: 0, isRunning: false })`. -/
def resetSync (s : TimerHookState) : TimerHookState × List UpdateRequest :=
  ({ clearTimerInterval s with
      timer := { (clearTimerInterval s).timer with elapsed := 0, isRunning := false } },
   [{ id := s.timerRefCurrent.id,
      payload := { isRunning := some false, elapsed := some 0 } }])

/-- One firing of the interval callback registered by `start` (lines 38-40)
or by the reconciler effect (lines 72-74): `setTimer(prev => elapsed + 1)`.
The callback can only fire while the interval is scheduled. -/
def tickFire (s : TimerHookState) : TimerHookState :=
  if s.intervalSet then
    { s with timer := { s.timer with elapsed := s.timer.elapsed + 1 } }
  else s

/-- The effects that run after a render commit, in declaration order: the
`timerRef` sync (lines 17-19), the `isRunningRef` sync (lines 22-24), and
the reconciler effect (lines 66-76) that clears the interval when the timer
is not running and creates one when it is running and none is scheduled.
Each effect body is conditional on state that only changes when its
dependency changed, so running all of them on every flush is extensionally
faithful to React's dependency-gated scheduling. -/
def flushEffects (s : TimerHookState) : TimerHookState :=
  let s1 := { s with timerRefCurrent := s.timer, isRunningRefCurrent := s.timer.isRunning }
  if !s1.timer.isRunning then clearTimerInterval s1
  else if !s1.intervalSet then
    { s1 with intervalSet := true, intervalsCreated := s1.intervalsCreated + 1 }
  else s1

/-- The continuation of `start`/`pause`/`reset` after their `await` (the
try/catch at lines 42-46, 53-57 and 81-85): a fulfilled confirmation is
ignored (its resolution value is discarded), and a rejected one is only
passed to `console.error` — neither path writes any hook state. -/
def confirmationSettle (s : TimerHookState) (failed : Bool) : TimerHookState :=
  if failed then { s with consoleErrorCount := s.consoleErrorCount + 1 } else s

/-- An event-loop step touching one `useTimer` hook instance: the
synchronous prefix of an operation call, an interval firing, an effect
flush after a commit, or the unmount cleanup (lines 88-90), which runs
`clearTimerInterval`. -/
inductive TimerEvent where
  | startE
  | pauseE
  | resetE
  | tickE
  | flushE
  | unmountE
deriving DecidableEq, Repr

/-- One step of the timer state machine, together with the confirmation
requests it issues. -/
def timerStep (s : TimerHookState) : TimerEvent → TimerHookState × List UpdateRequest
  | .startE => startSync s
  | .pauseE => pauseSync s
  | .resetE => resetSync s
  | .tickE => (tickFire s, [])
  | .flushE => (flushEffects s, [])
  | .unmountE => (clearTimerInterval s, [])

/-- Run a list of event-loop steps in order, collecting the confirmation
requests issued along the way. -/
def timerRun (s : TimerHookState) : List TimerEvent → TimerHookState × List UpdateRequest
  | [] => (s, [])
  | e :: es =>
      ((timerRun (timerStep s e).1 es).1,
       (timerStep s e).2 ++ (timerRun (timerStep s e).1 es).2)

/-- The timer used by the useTimer test suite (`mockTimer` in
useTimer.test.ts lines 13-20): id "1", elapsed 0, not running. -/
def mockTimer : Timer :=
  { id := "1", name := "Test Timer", description := "Test",
    elapsed := 0, isRunning := false, createdAt := 1700000000000 }

theorem clearTimerInterval_intervalSet (s : TimerHookState) :
    (clearTimerInterval s).intervalSet = false := by
  unfold clearTimerInterval
  split
  · rfl
  · rename_i h; simpa using h

theorem clearTimerInterval_timer (s : TimerHookState) :
    (clearTimerInterval s).timer = s.timer := by
  unfold clearTimerInterval
  split <;> rfl

theorem clearTimerInterval_of_clear (s : TimerHookState) (h : s.intervalSet = false) :
    clearTimerInterval s = s := by
  unfold clearTimerInterval
  rw [if_neg]
  simp [h]

theorem startSync_guarded (s : TimerHookState)
    (h : s.isRunningRefCurrent = true ∨ s.intervalSet = true) :
    startSync s = (s, []) := by
  unfold startSync
  rcases h with h | h <;> simp [h]

/-- C2: when `start()` is called twice (or more) in the same scheduling turn
on a timer whose refs show not-running and no scheduled interval, the first
call creates exactly one interval and issues exactly one confirmation
request carrying `isRunning: true`, and every subsequent duplicate call in
the turn returns from the reentrancy guard with no new interval and no
request. -/
theorem useTimer_start_reentrancy (s : TimerHookState)
    (hrun : s.isRunningRefCurrent = false) (hint : s.intervalSet = false) :
    (startSync s).1.intervalSet = true ∧
    (startSync s).1.intervalsCreated = s.intervalsCreated + 1 ∧
    (startSync s).2 = [{ id := s.timerRefCurrent.id, payload := { isRunning := some true } }] ∧
    ∀ n : Nat,
      timerRun (startSync s).1 (List.replicate n TimerEvent.startE) = ((startSync s).1, []) := by
  have h1 : startSync s =
      ({ s with
          timer := { s.timer with isRunning := true },
          intervalSet := true,
          intervalsCreated := s.intervalsCreated + 1 },
       [{ id := s.timerRefCurrent.id, payload := { isRunning := some true } }]) := by
    simp [startSync, hrun, hint]
  have hset : (startSync s).1.intervalSet = true := by rw [h1]
  refine ⟨hset, by rw [h1], by rw [h1], ?_⟩
  intro n
  induction n with
  | zero => rfl
  | succ n ih =>
      simp [List.replicate_succ, timerRun, timerStep,
        startSync_guarded (startSync s).1 (Or.inr hset), ih]

/-- Witness for C2: double start on the test timer — the guarded second call
is a no-op, one interval created, one request issued. -/
theorem useTimer_start_reentrancy_witness :
    (startSync (initTimerHook mockTimer)).1.intervalsCreated = 0 + 1 ∧
    (startSync (initTimerHook mockTimer)).2 =
      [{ id := "1", payload := { isRunning := some true } }] ∧
    timerRun (startSync (initTimerHook mockTimer)).1 [TimerEvent.startE] =
      ((startSync (initTimerHook mockTimer)).1, []) := by
  have h := useTimer_start_reentrancy (initTimerHook mockTimer) rfl rfl
  exact ⟨h.2.1, h.2.2.1, h.2.2.2 1⟩

/-- C4: teardown runs the unmount cleanup, which clears the interval, so no
later interval firing can increment `elapsed`, and the ticks issue no
confirmation request: any number of tick events after the unmount event
leaves the state unchanged with an empty request list. -/
theorem useTimer_teardown_no_further_ticks (s : TimerHookState) (n : Nat) :
    (timerRun s [TimerEvent.unmountE]).1.intervalSet = false ∧
    timerRun (timerRun s [TimerEvent.unmountE]).1 (List.replicate n TimerEvent.tickE) =
      ((timerRun s [TimerEvent.unmountE]).1, []) := by
  have hclear : (timerRun s [TimerEvent.unmountE]).1 = clearTimerInterval s := rfl
  have hint : (clearTimerInterval s).intervalSet = false := clearTimerInterval_intervalSet s
  refine ⟨by rw [hclear]; exact hint, ?_⟩
  rw [hclear]
  induction n with
  | zero => rfl
  | succ n ih =>
      have htick : tickFire (clearTimerInterval s) = clearTimerInterval s := by
        simp [tickFire, hint]
      simp [List.replicate_succ, timerRun, timerStep, htick, ih]

theorem timerHookState_pause_eta (s : TimerHookState) (h : s.timer.isRunning = false) :
    { s with timer := { s.timer with isRunning := false } } = s := by
  obtain ⟨⟨tid, tn, td, te, tr, tc, ts⟩, trc, irc, iv, ic, cec⟩ := s
  have htr : tr = false := h
  subst htr
  rfl

/-- C6: `pause()` clears the interval, freezes `elapsed`, sets `isRunning`
to false, and issues a confirmation carrying `isRunning: false` together
with the frozen elapsed value read from `timerRef`; pausing an already
paused timer changes nothing except re-sending the confirmation; and in the
concrete 2000ms scenario (start, two ticks, pause, with effect flushes at
the commit boundaries) the result is `elapsed = 2`, `isRunning = false` and
a confirmation carrying `isRunning: false, elapsed: 2`. -/
theorem useTimer_pause_semantics (s : TimerHookState) :
    (pauseSync s).1.intervalSet = false ∧
    (pauseSync s).1.timer.isRunning = false ∧
    (pauseSync s).1.timer.elapsed = s.timer.elapsed ∧
    (pauseSync s).2 =
      [{ id := s.timerRefCurrent.id,
         payload := { isRunning := some false, elapsed := some s.timerRefCurrent.elapsed } }] ∧
    (s.timer.isRunning = false → s.intervalSet = false → (pauseSync s).1 = s) ∧
    (timerRun (initTimerHook mockTimer)
        [TimerEvent.startE, TimerEvent.flushE, TimerEvent.tickE, TimerEvent.flushE,
          TimerEvent.tickE, TimerEvent.flushE, TimerEvent.pauseE]).1.timer.elapsed = 2 ∧
    (timerRun (initTimerHook mockTimer)
        [TimerEvent.startE, TimerEvent.flushE, TimerEvent.tickE, TimerEvent.flushE,
          TimerEvent.tickE, TimerEvent.flushE, TimerEvent.pauseE]).1.timer.isRunning = false ∧
    (timerRun (initTimerHook mockTimer)
        [TimerEvent.startE, TimerEvent.flushE, TimerEvent.tickE, TimerEvent.flushE,
          TimerEvent.tickE, TimerEvent.flushE, TimerEvent.pauseE]).2 =
      [{ id := "1", payload := { isRunning := some true } },
       { id := "1", payload := { isRunning := some false, elapsed := some 2 } }] := by
  refine ⟨?_, rfl, ?_, rfl, ?_, by decide, by decide, by decide⟩
  · exact clearTimerInterval_intervalSet s
  · show (clearTimerInterval s).timer.elapsed = s.timer.elapsed
    rw [clearTimerInterval_timer]
  · intro h1 h2
    show { clearTimerInterval s with
        timer := { (clearTimerInterval s).timer with isRunning := false } } = s
    rw [clearTimerInterval_of_clear s h2]
    exact timerHookState_pause_eta s h1

/-- Witness for C6: pausing the already-paused test timer leaves the state
unchanged and re-sends the confirmation with the frozen elapsed value 0. -/
theorem useTimer_pause_semantics_witness :
    (pauseSync (initTimerHook mockTimer)).1 = initTimerHook mockTimer ∧
    (pauseSync (initTimerHook mockTimer)).2 =
      [{ id := "1", payload := { isRunning := some false, elapsed := some 0 } }] := by
  have h := useTimer_pause_semantics (initTimerHook mockTimer)
  exact ⟨h.2.2.2.2.1 rfl rfl, h.2.2.2.1⟩

/-- C7: the completion handler of a confirmation request never rolls back
optimistic local state: for any in-flight activity (any event sequence
between issuing and settling), handling the failure leaves every field of
the local timer snapshot unchanged, and in the concrete scenario where the
start confirmation fails after two ticks, the accumulated `elapsed = 2` and
the optimistic `isRunning = true` are retained. -/
theorem useTimer_no_rollback (s : TimerHookState) (es : List TimerEvent) (failed : Bool) :
    (confirmationSettle (timerRun s es).1 failed).timer = (timerRun s es).1.timer ∧
    (confirmationSettle (timerRun (initTimerHook mockTimer)
        [TimerEvent.startE, TimerEvent.flushE, TimerEvent.tickE, TimerEvent.flushE,
          TimerEvent.tickE, TimerEvent.flushE]).1 true).timer.elapsed = 2 ∧
    (confirmationSettle (timerRun (initTimerHook mockTimer)
        [TimerEvent.startE, TimerEvent.flushE, TimerEvent.tickE, TimerEvent.flushE,
          TimerEvent.tickE, TimerEvent.flushE]).1 true).timer.isRunning = true := by
  refine ⟨?_, by decide, by decide⟩
  unfold confirmationSettle
  split <;> rfl

/-- C3 counterpart: at the failing input — `start()` on the test timer with
a rejecting `updateTimer` — the entire effect of the failure handler is one
`console.error` call: the hook state holds no error value anywhere (the
`UseTimerResult` record at useTimer.ts lines 5-10 exposes exactly
`timer`/`start`/`pause`/`reset`, no `error` field), so nothing failure-
related ever reaches the returned state. -/
theorem useTimer_failure_only_logs :
    confirmationSettle (timerRun (initTimerHook mockTimer) [TimerEvent.startE]).1 true =
      { (timerRun (initTimerHook mockTimer) [TimerEvent.startE]).1 with
          consoleErrorCount :=
            (timerRun (initTimerHook mockTimer) [TimerEvent.startE]).1.consoleErrorCount + 1 } ∧
    (confirmationSettle (timerRun (initTimerHook mockTimer) [TimerEvent.startE]).1 true).timer =
      (timerRun (initTimerHook mockTimer) [TimerEvent.startE]).1.timer := by
  exact ⟨rfl, rfl⟩

theorem timerStep_elapsed_nonneg (s : TimerHookState) (e : TimerEvent)
    (h : 0 ≤ s.timer.elapsed) : 0 ≤ (timerStep s e).1.timer.elapsed := by
  cases e with
  | startE =>
      simp only [timerStep]
      unfold startSync
      split
      · exact h
      · exact h
  | pauseE =>
      show (0 : Int) ≤ (clearTimerInterval s).timer.elapsed
      rw [clearTimerInterval_timer]
      exact h
  | resetE => show (0 : Int) ≤ 0; exact le_refl 0
  | tickE =>
      simp only [timerStep]
      unfold tickFire
      split
      · show (0 : Int) ≤ s.timer.elapsed + 1
        omega
      · exact h
  | flushE =>
      simp only [timerStep]
      unfold flushEffects
      dsimp only
      split
      · rw [clearTimerInterval_timer]
        exact h
      · split
        · exact h
        · exact h
  | unmountE =>
      show (0 : Int) ≤ (clearTimerInterval s).timer.elapsed
      rw [clearTimerInterval_timer]
      exact h

/-- C8: for every finite sequence of operation, tick, flush and unmount
events on a timer whose initial `elapsed` is a non-negative integer,
`elapsed` stays a non-negative integer; moreover a firing tick adds exactly
1, `start` and `pause` preserve `elapsed`, and `reset` sets it to 0. -/
theorem useTimer_elapsed_nonneg (t : Timer) (ht : 0 ≤ t.elapsed)
    (es : List TimerEvent) :
    0 ≤ (timerRun (initTimerHook t) es).1.timer.elapsed ∧
    (∀ s : TimerHookState, s.intervalSet = true →
      (tickFire s).timer.elapsed = s.timer.elapsed + 1) ∧
    (∀ s : TimerHookState, (startSync s).1.timer.elapsed = s.timer.elapsed) ∧
    (∀ s : TimerHookState, (pauseSync s).1.timer.elapsed = s.timer.elapsed) ∧
    (∀ s : TimerHookState, (resetSync s).1.timer.elapsed = 0) := by
  refine ⟨?_, ?_, ?_, ?_, ?_⟩
  · have gen : ∀ (l : List TimerEvent) (s : TimerHookState),
        0 ≤ s.timer.elapsed → 0 ≤ (timerRun s l).1.timer.elapsed := by
      intro l
      induction l with
      | nil => intro s h; exact h
      | cons e es ih => intro s h; exact ih _ (timerStep_elapsed_nonneg s e h)
    exact gen es _ ht
  · intro s h
    simp [tickFire, h]
  · intro s
    unfold startSync
    split
    · rfl
    · rfl
  · intro s
    show (clearTimerInterval s).timer.elapsed = s.timer.elapsed
    rw [clearTimerInterval_timer]
  · intro s
    rfl

/-- Witness for C8: a concrete start/tick/reset run from the test timer
keeps `elapsed` non-negative. -/
theorem useTimer_elapsed_nonneg_witness :
    0 ≤ (timerRun (initTimerHook mockTimer)
        [TimerEvent.startE, TimerEvent.flushE, TimerEvent.tickE,
          TimerEvent.resetE]).1.timer.elapsed := by
  exact (useTimer_elapsed_nonneg mockTimer (by decide) _).1

end HooksPractice
